import Mathlib

/-!
Verification of the Zhong-lab instrument driver (`Keysight_66322A.py`) and the
arbitrary-sequence orchestrator (`arbseq_spyrelet.py`).

The driver is embedded as a small free monad over the two transport primitives
the code uses (`self.write(cmd)` and `self.query(cmd)`); each public method of
the Python class `Keysight_36622A` becomes one Lean definition producing such a
program.  Runners interpret a program against a (stateless or stateful)
transport, recording the requests issued, so that claims about command strings,
call counts and error propagation become theorems about the runners.
-/

/-- A single transport request: the driver only ever calls `write` or `query`. -/
inductive Req : Type where
  | write (cmd : String) : Req
  | query (cmd : String) : Req
deriving DecidableEq, Repr

/-- Error payloads (exception messages) are kept abstract as strings. -/
abbrev Err := String

/-- Equality of `Except` values is decidable when both components are. -/
instance {ε α : Type} [DecidableEq ε] [DecidableEq α] : DecidableEq (Except ε α) := fun x y =>
  match x, y with
  | .ok a, .ok b => if h : a = b then .isTrue (by rw [h]) else .isFalse (by simp [h])
  | .error a, .error b => if h : a = b then .isTrue (by rw [h]) else .isFalse (by simp [h])
  | .ok _, .error _ => .isFalse (by simp)
  | .error _, .ok _ => .isFalse (by simp)

/-- A stateless transport: what the collaborator does on each write / query.
Either primitive may fail with an exception, modelled as `Except.error`. -/
structure Transport : Type where
  onWrite : String → Except Err Unit
  onQuery : String → Except Err String

/-- Driver programs: a shallow free monad over the two transport primitives.
`throw` models an uncaught Python exception raised inside the method body
(e.g. by `float(...)`).  There is deliberately no `catch` constructor: the
source contains no `try`/`except`. -/
inductive DriverM (α : Type) : Type where
  | pure (a : α) : DriverM α
  | throw (e : Err) : DriverM α
  | write (cmd : String) (k : DriverM α) : DriverM α
  | query (cmd : String) (k : String → DriverM α) : DriverM α

/-- Sequencing of driver programs (used only to express multi-step scenarios
such as "set then get"; each driver method is a single-step program). -/
def DriverM.bind {α β : Type} : DriverM α → (α → DriverM β) → DriverM β
  | .pure a, f => f a
  | .throw e, _ => .throw e
  | .write c k, f => .write c (k.bind f)
  | .query c k, f => .query c (fun r => (k r).bind f)

/-- Lift an `Except` value into a driver program: a successful value is
returned, an error is (re)raised. -/
def ofExcept {α : Type} : Except Err α → DriverM α
  | .ok a => .pure a
  | .error e => .throw e

/-- Run a driver program against a stateless transport, returning the result
(or the propagated exception) together with the list of transport requests
actually issued, in order.  A failing transport call aborts the program at
that point, so no further requests appear in the trace. -/
def run {α : Type} (t : Transport) : DriverM α → Except Err α × List Req
  | .pure a => (.ok a, [])
  | .throw e => (.error e, [])
  | .write c k =>
    match t.onWrite c with
    | .ok _ => ((run t k).1, .write c :: (run t k).2)
    | .error e => (.error e, [.write c])
  | .query c k =>
    match t.onQuery c with
    | .ok r => ((run t (k r)).1, .query c :: (run t (k r)).2)
    | .error e => (.error e, [.query c])

/-- Run a driver program against a stateful transport: `step` consumes one
request and produces the reply (or an exception) plus the next transport
state.  Used for the echoing-stub round-trip scenario. -/
def runState {σ α : Type} (step : σ → Req → Except Err String × σ) :
    σ → DriverM α → Except Err α × σ
  | s, .pure a => (.ok a, s)
  | s, .throw e => (.error e, s)
  | s, .write c k =>
    match step s (.write c) with
    | (.ok _, s2) => runState step s2 k
    | (.error e, s2) => (.error e, s2)
  | s, .query c k =>
    match step s (.query c) with
    | (.ok r, s2) => runState step s2 (k r)
    | (.error e, s2) => (.error e, s2)

/-! ### A model of the Python builtin `float` on decimal numerals

The driver parses instrument replies with `float(reply)`.  Python's `float`
is an external builtin; it is modelled here on plain decimal numerals
(optional sign, digits with an optional decimal point, optional decimal
exponent), returning an exact rational.  Any other input raises, as
`float('garbage')` does. -/

/-- Value of a list of decimal digit characters, most significant first. -/
def natOfDigits (cs : List Char) : ℕ :=
  cs.foldl (fun a c => 10 * a + (c.toNat - 48)) 0

/-- All characters are decimal digits. -/
def allDigits (cs : List Char) : Bool :=
  cs.all (fun c => c.isDigit)

/-- Strip an optional leading sign, returning whether it was negative. -/
def splitSign : List Char → Bool × List Char
  | '-' :: r => (true, r)
  | '+' :: r => (false, r)
  | r => (false, r)

/-- Digits of a mantissa `digits[.digits]`, as (combined digit value, number
of fractional digits); `none` when malformed. -/
def mantissaParts (cs : List Char) : Option (ℕ × ℕ) :=
  let ip := cs.takeWhile (fun c => c != '.')
  let rest := cs.dropWhile (fun c => c != '.')
  match rest with
  | [] => if ip ≠ [] ∧ allDigits ip then some (natOfDigits ip, 0) else none
  | _ :: frac =>
    if (ip ≠ [] ∨ frac ≠ []) ∧ allDigits ip ∧ allDigits frac then
      some (natOfDigits (ip ++ frac), frac.length)
    else none

/-- Value of an exponent part `[sign]digits`; `none` when malformed. -/
def expVal : List Char → Option ℤ
  | '-' :: ds => if ds ≠ [] ∧ allDigits ds then some (-(natOfDigits ds : ℤ)) else none
  | '+' :: ds => if ds ≠ [] ∧ allDigits ds then some ((natOfDigits ds : ℤ)) else none
  | ds => if ds ≠ [] ∧ allDigits ds then some ((natOfDigits ds : ℤ)) else none

/-- Exact rational value of a sign, mantissa digits `m` with `fl` fractional
digits, and decimal exponent `e`. -/
def decValue (neg : Bool) (m fl : ℕ) (e : ℤ) : ℚ :=
  let num : ℕ := match e with | .ofNat k => m * 10 ^ k | .negSucc _ => m
  let den : ℕ := match e with | .ofNat _ => 10 ^ fl | .negSucc k => 10 ^ fl * 10 ^ (k + 1)
  if neg then -(mkRat num den) else mkRat num den

/-- Model of Python `float(s)` on decimal numerals: exact rational value on
success, an exception (`ValueError`) on malformed input. -/
def pyFloat (s : String) : Except Err ℚ :=
  let (neg, cs1) := splitSign s.toList
  let mcs := cs1.takeWhile (fun c => c != 'e' && c != 'E')
  let ecs := cs1.dropWhile (fun c => c != 'e' && c != 'E')
  match mantissaParts mcs, ecs with
  | some (m, fl), [] => .ok (decValue neg m fl 0)
  | some (m, fl), _ :: es =>
    match expVal es with
    | some e => .ok (decValue neg m fl e)
    | none => .error "ValueError: could not convert string to float"
  | none, _ => .error "ValueError: could not convert string to float"


/-! ### The driver `Keysight_36622A`

Each public method of the Python class is one definition.  The four body
shapes occurring in the source are captured by four combinators:
`return self.query(c)`, `self.query(c)` (reply read and discarded),
`return float(self.query(c))`, and `self.write(c)`.  Numeric parameters are
rendered by `format`, i.e. `str()`; value parameters arrive as the string
`str(value)` produces (the driver only ever splices them into the command). -/

/-- Body shape `return self.query(c)`. -/
def queryOp (c : String) : DriverM String := .query c (fun r => .pure r)

/-- Body shape `self.query(c)` with the reply discarded (no `return`). -/
def queryDiscard (c : String) : DriverM Unit := .query c (fun _ => .pure ())

/-- Body shape `return float(self.query(c))`. -/
def queryFloat (c : String) : DriverM ℚ := .query c (fun r => ofExcept (pyFloat r))

/-- Body shape `self.write(c)`. -/
def writeOp (c : String) : DriverM Unit := .write c (.pure ())

namespace Keysight_36622A

/-- `idn`: `return self.query('*IDN?')`. -/
def idn : DriverM String := queryOp "*IDN?"

/-- `clear_status`: `self.query('*CLS')`. -/
def clear_status : DriverM Unit := queryDiscard "*CLS"

/-- `event_status_enable`: `return self.query('*ESE'+str(NRf))`. -/
def event_status_enable (nrf : ℕ) : DriverM String := queryOp ("*ESE" ++ toString nrf)

/-- `read_standard_event_status_register`: `return self.query('*ESR?')`. -/
def read_standard_event_status_register : DriverM String := queryOp "*ESR?"

/-- `operation_complete`: `self.query('*OPC')`. -/
def operation_complete : DriverM Unit := queryDiscard "*OPC"

/-- `operation_completed`: `return self.query('*OPC?')`. -/
def operation_completed : DriverM String := queryOp "*OPC?"

/-- `trigger`: `self.query('*TRG')`. -/
def trigger : DriverM Unit := queryDiscard "*TRG"

/-- `test`: `return self.query('*TST?')`. -/
def test : DriverM String := queryOp "*TST?"

/-- `wait`: `self.query('*WAI')`. -/
def wait : DriverM Unit := queryDiscard "*WAI"

/-- `voltage` getter: `return float(self.query('SOURCE{}:VOLT?'.format(key)))`. -/
def voltage_get (key : ℕ) : DriverM ℚ :=
  queryFloat ("SOURCE" ++ toString key ++ ":VOLT?")

/-- `voltage` setter: `self.write('SOURCE{}:VOLT {}'.format(key, value))`. -/
def voltage_set (key : ℕ) (value : String) : DriverM Unit :=
  writeOp ("SOURCE" ++ toString key ++ ":VOLT " ++ value)

/-- `offset` getter: `return float(self.query('SOURCE{}:VOLT:OFFS?'.format(key)))`. -/
def offset_get (key : ℕ) : DriverM ℚ :=
  queryFloat ("SOURCE" ++ toString key ++ ":VOLT:OFFS?")

/-- `offset` setter: `self.write('SOURCE{}:VOLT:OFFS {}'.format(key, value))`. -/
def offset_set (key : ℕ) (value : String) : DriverM Unit :=
  writeOp ("SOURCE" ++ toString key ++ ":VOLT:OFFS " ++ value)

/-- `frequency` getter: `return float(self.query('SOURCE{}:FREQ?'.format(key)))`. -/
def frequency_get (key : ℕ) : DriverM ℚ :=
  queryFloat ("SOURCE" ++ toString key ++ ":FREQ?")

/-- `frequency` setter: `self.write('SOURCE{}:FREQ {}'.format(key, value))`. -/
def frequency_set (key : ℕ) (value : String) : DriverM Unit :=
  writeOp ("SOURCE" ++ toString key ++ ":FREQ " ++ value)

/-- `waveform` getter: `return self.query('SOURCE{}:FUNC?'.format(key))`. -/
def waveform_get (key : ℕ) : DriverM String :=
  queryOp ("SOURCE" ++ toString key ++ ":FUNC?")

/-- `waveform` setter: `self.write('SOURCE{}:FUNC {}'.format(key, value))`. -/
def waveform_set (key : ℕ) (value : String) : DriverM Unit :=
  writeOp ("SOURCE" ++ toString key ++ ":FUNC " ++ value)

/-- `load_arbitrary`: `self.query('MMEM:LOAD:DATA{}{}'.format(key, filename))`. -/
def load_arbitrary (filename : String) (key : ℕ) : DriverM Unit :=
  queryDiscard ("MMEM:LOAD:DATA" ++ toString key ++ filename)

/-- `load_frequencies`: `self.query('MMEM:LOAD:LIST{}{}'.format(key, filename))`. -/
def load_frequencies (filename : String) (key : ℕ) : DriverM Unit :=
  queryDiscard ("MMEM:LOAD:LIST" ++ toString key ++ filename)

/-- `abort`: `self.query('ABORT')`. -/
def abort : DriverM Unit := queryDiscard "ABORT"

/-- `freq_start`: `self.write('SOUR{}:FREQ:START{}'.format(key, value))`. -/
def freq_start (key : ℕ) (value : String) : DriverM Unit :=
  writeOp ("SOUR" ++ toString key ++ ":FREQ:START" ++ value)

/-- `freq_stop`: `self.write('SOUR{}:FREQ:STOP{}'.format(key, value))`. -/
def freq_stop (key : ℕ) (value : String) : DriverM Unit :=
  writeOp ("SOUR" ++ toString key ++ ":FREQ:STOP" ++ value)

/-- `trigger_source` getter: `return self.query('TRIG{}:SOURCE?'.format(key))`. -/
def trigger_source_get (key : ℕ) : DriverM String :=
  queryOp ("TRIG" ++ toString key ++ ":SOURCE?")

/-- `trigger_source` setter: `self.write('TRIG{}:SOURCE{}'.format(key, value))`
(sic: the format string has no space between `SOURCE` and the value). -/
def trigger_source_set (key : ℕ) (value : String) : DriverM Unit :=
  writeOp ("TRIG" ++ toString key ++ ":SOURCE" ++ value)

/-- `force_trigger`: `self.query('TRIG{}'.format(key))`. -/
def force_trigger (key : ℕ) : DriverM Unit :=
  queryDiscard ("TRIG" ++ toString key)

/-- `sweep_mode` getter: `return self.query('SOURCE{}:SWEEP:SPAC?'.format(key))`. -/
def sweep_mode_get (key : ℕ) : DriverM String :=
  queryOp ("SOURCE" ++ toString key ++ ":SWEEP:SPAC?")

/-- `sweep_mode` setter: `self.query('SOURCE{}:SWEEP:SPAC {}'.format(key, value))`. -/
def sweep_mode_set (key : ℕ) (value : String) : DriverM Unit :=
  queryDiscard ("SOURCE" ++ toString key ++ ":SWEEP:SPAC " ++ value)

/-- `sweep_time` getter: `return self.query('SOURCE{}:SWEEP:TIME?'.format(key))`. -/
def sweep_time_get (key : ℕ) : DriverM String :=
  queryOp ("SOURCE" ++ toString key ++ ":SWEEP:TIME?")

/-- `sweep_time` setter: `self.query('SOURCE{}:SWEEP:TIME {}'.format(key, value))`. -/
def sweep_time_set (key : ℕ) (value : String) : DriverM Unit :=
  queryDiscard ("SOURCE" ++ toString key ++ ":SWEEP:TIME " ++ value)

/-- `get_error`: `return self.query('SYSTEM:ERROR?')`. -/
def get_error : DriverM String := queryOp "SYSTEM:ERROR?"

end Keysight_36622A

/-! ### Semantics of the four body shapes -/

/-- Running a lifted `Except` issues no requests and returns it unchanged. -/
theorem run_ofExcept {α : Type} (t : Transport) (x : Except Err α) :
    run t (ofExcept x) = (x, []) := by
  cases x <;> rfl

/-- `return self.query(c)`: one query, result is exactly the transport's answer. -/
theorem run_queryOp (t : Transport) (c : String) :
    run t (queryOp c) = (t.onQuery c, [Req.query c]) := by
  unfold queryOp run
  cases t.onQuery c <;> rfl

/-- `self.query(c)` with discarded reply: one query, errors propagate. -/
theorem run_queryDiscard (t : Transport) (c : String) :
    run t (queryDiscard c) = ((t.onQuery c).map (fun _ => ()), [Req.query c]) := by
  unfold queryDiscard run
  cases t.onQuery c <;> rfl

/-- `return float(self.query(c))`: one query, result is the parse of the reply. -/
theorem run_queryFloat (t : Transport) (c : String) :
    run t (queryFloat c) = ((t.onQuery c).bind pyFloat, [Req.query c]) := by
  unfold queryFloat run
  cases h : t.onQuery c
  · rfl
  · simp [run_ofExcept, Except.bind]

/-- `self.write(c)`: one write, errors propagate. -/
theorem run_writeOp (t : Transport) (c : String) :
    run t (writeOp c) = ((t.onWrite c).map (fun _ => ()), [Req.write c]) := by
  unfold writeOp run
  cases t.onWrite c <;> rfl

/-- A driver operation issues exactly one blocking transport call, and when
that single call raises, the operation's result is that very exception (so
nothing is caught, retried, or sent afterwards: the trace still has exactly
one element). -/
def oneCallNoRetry {α : Type} (p : DriverM α) : Prop :=
  ∀ t : Transport,
    (run t p).2.length = 1 ∧
    (∀ c e, (run t p).2 = [Req.query c] → t.onQuery c = Except.error e →
      (run t p).1 = Except.error e) ∧
    (∀ c e, (run t p).2 = [Req.write c] → t.onWrite c = Except.error e →
      (run t p).1 = Except.error e)

theorem oneCall_queryOp (c : String) : oneCallNoRetry (queryOp c) := by
  intro t
  rw [run_queryOp]
  refine ⟨rfl, ?_, ?_⟩
  · intro c2 e hc he
    simp only [List.cons.injEq, Req.query.injEq] at hc
    rw [hc.1, he]
  · intro c2 e hc _
    simp at hc

theorem oneCall_queryDiscard (c : String) : oneCallNoRetry (queryDiscard c) := by
  intro t
  rw [run_queryDiscard]
  refine ⟨rfl, ?_, ?_⟩
  · intro c2 e hc he
    simp only [List.cons.injEq, Req.query.injEq] at hc
    rw [hc.1, he]
    rfl
  · intro c2 e hc _
    simp at hc

theorem oneCall_queryFloat (c : String) : oneCallNoRetry (queryFloat c) := by
  intro t
  rw [run_queryFloat]
  refine ⟨rfl, ?_, ?_⟩
  · intro c2 e hc he
    simp only [List.cons.injEq, Req.query.injEq] at hc
    rw [hc.1, he]
    rfl
  · intro c2 e hc _
    simp at hc

theorem oneCall_writeOp (c : String) : oneCallNoRetry (writeOp c) := by
  intro t
  rw [run_writeOp]
  refine ⟨rfl, ?_, ?_⟩
  · intro c2 e hc _
    simp at hc
  · intro c2 e hc he
    simp only [List.cons.injEq, Req.write.injEq] at hc
    rw [hc.1, he]
    rfl

/-! ### The orchestrator `ArbSeq` (`arbseq_spyrelet.py`)

The `make_arb` task and its initializer are modelled as the sequence of
observable collaborator calls they perform.  Waveform construction
(`SeqBuild`) is an external collaborator, so the sample array `ydata` is a
parameter.  Python's `while x < len(ydata): xdata.append(x); x += timestep`
does not terminate for `timestep ≤ 0`; the embedding guards the loop with
`0 < t` (returning `[]` there), and every claim about it assumes `0 < t`. -/

/-- For `0 < a`, the ceiling decreases strictly when `a` drops by 1. -/
theorem ceil_pos_shift {a : ℚ} (ha : 0 < a) : Nat.ceil a = Nat.ceil (a - 1) + 1 := by
  rcases le_or_lt a 1 with h1 | h1
  · have h0 : Nat.ceil (a - 1) = 0 := Nat.ceil_eq_zero.mpr (by linarith)
    have hc1 : Nat.ceil a = 1 := by
      apply le_antisymm
      · exact Nat.ceil_le.mpr (by exact_mod_cast h1)
      · exact Nat.ceil_pos.mpr ha
    omega
  · apply le_antisymm
    · apply Nat.ceil_le.mpr
      push_cast
      have := Nat.le_ceil (a - 1)
      linarith
    · have hlt : ((Nat.ceil (a - 1) : ℚ)) < a := by
        have := Nat.ceil_lt_add_one (show (0 : ℚ) ≤ a - 1 by linarith)
        linarith
      have := Nat.lt_ceil.mpr hlt
      omega

theorem ceil_sub_one_lt {a : ℚ} (ha : 0 < a) : Nat.ceil (a - 1) < Nat.ceil a := by
  rw [ceil_pos_shift ha]
  exact Nat.lt_succ_self _

/-- The x-coordinate loop of `make_arb`:
`while x < bound: xdata.append(x); x += t`. -/
def buildXAux (t bound x : ℚ) : List ℚ :=
  if h : 0 < t ∧ x < bound then
    x :: buildXAux t bound (x + t)
  else []
termination_by Nat.ceil ((bound - x) / t)
decreasing_by
  have ht := h.1
  have ha : 0 < (bound - x) / t := div_pos (by linarith [h.2]) ht
  have hsh : (bound - (x + t)) / t = (bound - x) / t - 1 := by
    field_simp
    ring
  rw [hsh]
  exact ceil_sub_one_lt ha

/-- `xdata` as built by `make_arb` for a sample array of length `n`:
`x = 0; while x < len(ydata): xdata.append(x); x += timestep`. -/
def buildXdata (t : ℚ) (n : ℕ) : List ℚ := buildXAux t n 0

/-- Python list indexing `xs[i]`: raises `IndexError` out of range.  (The
lists here only ever grow by `append`, so negative indices never occur.) -/
def pyIndex (xs : List ℚ) (i : ℕ) : Except Err ℚ :=
  if h : i < xs.length then .ok (xs.get ⟨i, h⟩) else .error "IndexError"

/-- The acquire loop of `make_arb` over the given index order:
`for i in range(len(ydata)): values = {'x': xdata[i], 'y': ydata[i]}; acquire(values)`.
Returns the acquired `(x, y)` records, or the first uncaught `IndexError`. -/
def acquireLoop (xdata ydata : List ℚ) : List ℕ → Except Err (List (ℚ × ℚ))
  | [] => .ok []
  | i :: rest =>
    match pyIndex xdata i, pyIndex ydata i with
    | .ok xv, .ok yv => (acquireLoop xdata ydata rest).map (fun recs => (xv, yv) :: recs)
    | .error e, _ => .error e
    | .ok _, .error e => .error e

/-- The acquire loop with Python's `range(len(ydata))` index order. -/
def makeArbLoop (xdata ydata : List ℚ) : Except Err (List (ℚ × ℚ)) :=
  acquireLoop xdata ydata (List.range ydata.length)

/-- Observable collaborator calls of the orchestrator, in program order. -/
inductive OrchEv : Type where
  | clearStatus : OrchEv
  | setVoltage (ch : ℕ) (v : ℚ) : OrchEv
  | setOutput (ch : ℕ) (s : String) : OrchEv
  | acquire (x y : ℚ) : OrchEv
  | sendArb (ch : ℕ) : OrchEv
  | datasetClear : OrchEv
deriving DecidableEq, Repr

/-- The `make_arb` initializer, in source order:
`self.fungen.clear_status(); self.fungen.voltage[channel] = params['voltage'];
self.fungen.output[channel] = 'ON'`. -/
def initializeEvents (ch : ℕ) (v : ℚ) : List OrchEv :=
  [OrchEv.clearStatus, OrchEv.setVoltage ch v, OrchEv.setOutput ch "ON"]

/-- One run of the `make_arb` task (initializer, then body): builds `xdata`,
acquires one `(x, y)` record per sample, uploads the waveform
(`self.fungen.send_arb(arbseq, chn=params['channel'])`), then clears the
dataset (`self.dataset.clear()`).  An `IndexError` in the acquire loop
aborts the run uncaught. -/
def taskRun (ch : ℕ) (v t : ℚ) (ydata : List ℚ) : Except Err (List OrchEv) :=
  match makeArbLoop (buildXdata t ydata.length) ydata with
  | .ok recs =>
    .ok (initializeEvents ch v ++
      ((recs.map fun p => OrchEv.acquire p.1 p.2) ++ [OrchEv.sendArb ch, OrchEv.datasetClear]))
  | .error e => .error e

/-- Effect of one orchestrator event on the accumulated dataset:
`acquire` appends a record, `self.dataset.clear()` empties it. -/
def applyEv (ds : List (ℚ × ℚ)) : OrchEv → List (ℚ × ℚ)
  | OrchEv.acquire x y => ds ++ [(x, y)]
  | OrchEv.datasetClear => []
  | _ => ds

/-! ### Characterization of the x-coordinate loop -/

/-- For a positive step, the while loop produces `x, x+t, x+2t, ...` with
exactly `⌈(bound - x) / t⌉` iterations. -/
theorem buildXAux_eq_range (t bound : ℚ) (ht : 0 < t) :
    ∀ (k : ℕ) (x : ℚ), Nat.ceil ((bound - x) / t) = k →
      buildXAux t bound x = (List.range k).map (fun i : ℕ => x + (i : ℚ) * t) := by
  intro k
  induction k with
  | zero =>
    intro x hk
    rw [buildXAux.eq_def]
    have hx : ¬ x < bound := by
      intro hlt
      have hpos : 0 < Nat.ceil ((bound - x) / t) :=
        Nat.ceil_pos.mpr (div_pos (by linarith) ht)
      omega
    have hcond : ¬ (0 < t ∧ x < bound) := by
      intro hc
      exact hx hc.2
    rw [dif_neg hcond]
    simp
  | succ k ih =>
    intro x hk
    have hx : x < bound := by
      by_contra hge
      have hz : Nat.ceil ((bound - x) / t) = 0 := by
        apply Nat.ceil_eq_zero.mpr
        apply div_nonpos_of_nonpos_of_nonneg
        · linarith [not_lt.mp hge]
        · linarith
      omega
    rw [buildXAux.eq_def]
    rw [dif_pos (And.intro ht hx)]
    have hsh : (bound - (x + t)) / t = (bound - x) / t - 1 := by
      field_simp
      ring
    have hk2 : Nat.ceil ((bound - (x + t)) / t) = k := by
      rw [hsh]
      have := ceil_pos_shift (show 0 < (bound - x) / t from div_pos (by linarith) ht)
      omega
    rw [ih (x + t) hk2]
    rw [List.range_succ_eq_map]
    simp only [List.map_cons, List.map_map, Nat.cast_zero, zero_mul, add_zero]
    congr 1
    apply List.map_congr_left
    intro i _
    simp only [Function.comp_apply]
    push_cast
    ring

/-- `xdata` for `n` samples and positive timestep `t` is
`[0, t, 2t, ...]` with exactly `⌈n / t⌉` entries. -/
theorem buildXdata_eq (t : ℚ) (n : ℕ) (ht : 0 < t) :
    buildXdata t n = (List.range (Nat.ceil ((n : ℚ) / t))).map (fun i : ℕ => (i : ℚ) * t) := by
  rw [buildXdata, buildXAux_eq_range t n ht (Nat.ceil ((n : ℚ) / t)) 0 (by rw [sub_zero])]
  apply List.map_congr_left
  intro i _
  rw [zero_add]

theorem buildXdata_length (t : ℚ) (n : ℕ) (ht : 0 < t) :
    (buildXdata t n).length = Nat.ceil ((n : ℚ) / t) := by
  rw [buildXdata_eq t n ht, List.length_map, List.length_range]

/-! ### Concrete evaluations of the x-coordinate loop -/

theorem buildXdata_one_one : buildXdata 1 1 = [0] := by
  rw [buildXdata_eq 1 1 (by norm_num)]
  norm_num
  simp [List.range_succ]

theorem buildXdata_one_two : buildXdata 1 2 = [0, 1] := by
  rw [buildXdata_eq 1 2 (by norm_num)]
  have h2 : Nat.ceil (((2 : ℕ) : ℚ) / 1) = 2 := by
    norm_num
  rw [h2]
  simp [List.range_succ]

theorem buildXdata_threehalf_two : buildXdata (3 / 2) 2 = [0, 3 / 2] := by
  rw [buildXdata_eq (3 / 2) 2 (by norm_num)]
  have h2 : Nat.ceil (((2 : ℕ) : ℚ) / (3 / 2)) = 2 := by
    rw [Nat.ceil_eq_iff (by norm_num)]
    constructor
    · push_cast
      norm_num
    · push_cast
      norm_num
  rw [h2]
  simp [List.range_succ]

/-! ### The echoing transport stub (round-trip scenario) -/

/-- Strip a literal prefix from a character list, returning the remainder. -/
def stripCmd : List Char → List Char → Option (List Char)
  | [], r => some r
  | _ :: _, [] => none
  | a :: ps, b :: cs => if a = b then stripCmd ps cs else none

/-- Stub transport for the round-trip scenario: it remembers the value text
of the last channel-1 voltage-set command it received and echoes exactly
that text back on the channel-1 voltage query. -/
def echoStep (st : Option String) : Req → Except Err String × Option String
  | .write c =>
    match stripCmd "SOURCE1:VOLT ".toList c.toList with
    | some v => (.ok "", some (String.mk v))
    | none => (.ok "", st)
  | .query c =>
    if c = "SOURCE1:VOLT?" then
      match st with
      | some v => (.ok v, st)
      | none => (.error "no stored value", st)
    else (.error "unexpected command", st)

/-! ### Claims about the driver -/

/-- C1: for every channel key and every value text `v`, the voltage setter
sends exactly the single command `SOURCE{channel}:VOLT {v}` through the
transport's write call, and nothing else (the request trace of one
invocation is exactly that one write). -/
theorem C1_voltage_setter_command (t : Transport) (key : ℕ) (v : String) :
    (run t (Keysight_36622A.voltage_set key v)).2 =
      [Req.write ("SOURCE" ++ toString key ++ ":VOLT " ++ v)] := by
  simp only [Keysight_36622A.voltage_set, run_writeOp]

/-- C2: with the echoing transport stub — which stores the value text of the
voltage-set command and replies to the voltage query with exactly that
text — setting channel 1's voltage to 5.0 (command text `"5.0"`, as
`str(5.0)` renders it) and then reading it back returns exactly 5.0. -/
theorem C2_set_get_roundtrip :
    (runState echoStep none
      ((Keysight_36622A.voltage_set 1 "5.0").bind
        (fun _ => Keysight_36622A.voltage_get 1))).1 = Except.ok (5 : ℚ) := by
  decide

/-- C3 (code bug): the `trigger_source` setter formats its command with
`'TRIG{}:SOURCE{}'`, i.e. with no space between the `SOURCE` keyword and
the value, so for channel 1 and source `BUS` it writes `TRIG1:SOURCEBUS`,
which differs from the spec's (and the driver's own docstring's) command
vocabulary `TRIG{ch}:SOURCE {src}`. -/
theorem C3_trigger_source_no_space (t : Transport) :
    (run t (Keysight_36622A.trigger_source_set 1 "BUS")).2 =
      [Req.write "TRIG1:SOURCEBUS"] ∧
    "TRIG1:SOURCEBUS" ≠ "TRIG1:SOURCE BUS" := by
  constructor
  · simp only [Keysight_36622A.trigger_source_set, run_writeOp]
    decide
  · decide

/-- A float-parsing getter propagates a parse failure unchanged. -/
theorem queryFloat_parse_error (t : Transport) (c s : String) (e : Err)
    (hq : t.onQuery c = .ok s) (hp : pyFloat s = .error e) :
    (run t (queryFloat c)).1 = .error e := by
  rw [run_queryFloat, hq]
  exact hp

/-- C4: every public driver operation performs exactly one blocking transport
call (one write or one query); an exception raised by that call, or by the
`float` parse of the reply, propagates to the caller unchanged, and no
operation catches it, retries, or sends a further command after the failure
(the request trace has exactly one element in every case). -/
theorem C4_single_call_no_recovery (key : ℕ) (value : String) (nrf : ℕ) (filename : String) :
    oneCallNoRetry Keysight_36622A.idn ∧
    oneCallNoRetry Keysight_36622A.clear_status ∧
    oneCallNoRetry (Keysight_36622A.event_status_enable nrf) ∧
    oneCallNoRetry Keysight_36622A.read_standard_event_status_register ∧
    oneCallNoRetry Keysight_36622A.operation_complete ∧
    oneCallNoRetry Keysight_36622A.operation_completed ∧
    oneCallNoRetry Keysight_36622A.trigger ∧
    oneCallNoRetry Keysight_36622A.test ∧
    oneCallNoRetry Keysight_36622A.wait ∧
    oneCallNoRetry (Keysight_36622A.voltage_get key) ∧
    oneCallNoRetry (Keysight_36622A.voltage_set key value) ∧
    oneCallNoRetry (Keysight_36622A.offset_get key) ∧
    oneCallNoRetry (Keysight_36622A.offset_set key value) ∧
    oneCallNoRetry (Keysight_36622A.frequency_get key) ∧
    oneCallNoRetry (Keysight_36622A.frequency_set key value) ∧
    oneCallNoRetry (Keysight_36622A.waveform_get key) ∧
    oneCallNoRetry (Keysight_36622A.waveform_set key value) ∧
    oneCallNoRetry (Keysight_36622A.load_arbitrary filename key) ∧
    oneCallNoRetry (Keysight_36622A.load_frequencies filename key) ∧
    oneCallNoRetry Keysight_36622A.abort ∧
    oneCallNoRetry (Keysight_36622A.freq_start key value) ∧
    oneCallNoRetry (Keysight_36622A.freq_stop key value) ∧
    oneCallNoRetry (Keysight_36622A.trigger_source_get key) ∧
    oneCallNoRetry (Keysight_36622A.trigger_source_set key value) ∧
    oneCallNoRetry (Keysight_36622A.force_trigger key) ∧
    oneCallNoRetry (Keysight_36622A.sweep_mode_get key) ∧
    oneCallNoRetry (Keysight_36622A.sweep_mode_set key value) ∧
    oneCallNoRetry (Keysight_36622A.sweep_time_get key) ∧
    oneCallNoRetry (Keysight_36622A.sweep_time_set key value) ∧
    oneCallNoRetry Keysight_36622A.get_error ∧
    (∀ (t : Transport) (s : String) (e : Err),
      t.onQuery ("SOURCE" ++ toString key ++ ":VOLT?") = .ok s → pyFloat s = .error e →
        (run t (Keysight_36622A.voltage_get key)).1 = .error e) ∧
    (∀ (t : Transport) (s : String) (e : Err),
      t.onQuery ("SOURCE" ++ toString key ++ ":VOLT:OFFS?") = .ok s → pyFloat s = .error e →
        (run t (Keysight_36622A.offset_get key)).1 = .error e) ∧
    (∀ (t : Transport) (s : String) (e : Err),
      t.onQuery ("SOURCE" ++ toString key ++ ":FREQ?") = .ok s → pyFloat s = .error e →
        (run t (Keysight_36622A.frequency_get key)).1 = .error e) :=
  ⟨oneCall_queryOp _, oneCall_queryDiscard _, oneCall_queryOp _, oneCall_queryOp _,
    oneCall_queryDiscard _, oneCall_queryOp _, oneCall_queryDiscard _, oneCall_queryOp _,
    oneCall_queryDiscard _, oneCall_queryFloat _, oneCall_writeOp _, oneCall_queryFloat _,
    oneCall_writeOp _, oneCall_queryFloat _, oneCall_writeOp _, oneCall_queryOp _,
    oneCall_writeOp _, oneCall_queryDiscard _, oneCall_queryDiscard _, oneCall_queryDiscard _,
    oneCall_writeOp _, oneCall_writeOp _, oneCall_queryOp _, oneCall_writeOp _,
    oneCall_queryDiscard _, oneCall_queryOp _, oneCall_queryDiscard _, oneCall_queryOp _,
    oneCall_queryDiscard _, oneCall_queryOp _,
    fun t s e hq hp => queryFloat_parse_error t _ s e hq hp,
    fun t s e hq hp => queryFloat_parse_error t _ s e hq hp,
    fun t s e hq hp => queryFloat_parse_error t _ s e hq hp⟩

/-- A transport whose every call raises. -/
def failTransport : Transport :=
  ⟨fun _ => .error "connection lost", fun _ => .error "connection lost"⟩

/-- Witness for C4: on a transport whose single query raises, `idn` returns
exactly that exception. -/
theorem C4_witness :
    (run failTransport Keysight_36622A.idn).1 = Except.error "connection lost" := by
  have h := C4_single_call_no_recovery 1 "5.0" 0 "wave.arb"
  exact (h.1 failTransport).2.1 "*IDN?" "connection lost" rfl rfl

/-- C6: the driver holds no local cache.  The Python class declares no
instance fields at all, so the embedding carries no driver state; what
remains observable is that every getter invocation issues its own fresh
query and its result is a function of that single reply alone, every setter
invocation re-sends its command, and two consecutive reads of the same
setting perform two separate transport round-trips. -/
theorem C6_no_cache (t t2 : Transport) (key : ℕ) (v : String) :
    ((run t (Keysight_36622A.voltage_get key)).2 =
      [Req.query ("SOURCE" ++ toString key ++ ":VOLT?")]) ∧
    ((run t (Keysight_36622A.offset_get key)).2 =
      [Req.query ("SOURCE" ++ toString key ++ ":VOLT:OFFS?")]) ∧
    ((run t (Keysight_36622A.frequency_get key)).2 =
      [Req.query ("SOURCE" ++ toString key ++ ":FREQ?")]) ∧
    (t.onQuery ("SOURCE" ++ toString key ++ ":VOLT?") =
        t2.onQuery ("SOURCE" ++ toString key ++ ":VOLT?") →
      run t (Keysight_36622A.voltage_get key) = run t2 (Keysight_36622A.voltage_get key)) ∧
    (t.onQuery ("SOURCE" ++ toString key ++ ":VOLT:OFFS?") =
        t2.onQuery ("SOURCE" ++ toString key ++ ":VOLT:OFFS?") →
      run t (Keysight_36622A.offset_get key) = run t2 (Keysight_36622A.offset_get key)) ∧
    (t.onQuery ("SOURCE" ++ toString key ++ ":FREQ?") =
        t2.onQuery ("SOURCE" ++ toString key ++ ":FREQ?") →
      run t (Keysight_36622A.frequency_get key) = run t2 (Keysight_36622A.frequency_get key)) ∧
    ((run t (Keysight_36622A.voltage_set key v)).2 =
      [Req.write ("SOURCE" ++ toString key ++ ":VOLT " ++ v)]) ∧
    ((run t (Keysight_36622A.offset_set key v)).2 =
      [Req.write ("SOURCE" ++ toString key ++ ":VOLT:OFFS " ++ v)]) ∧
    ((run t (Keysight_36622A.frequency_set key v)).2 =
      [Req.write ("SOURCE" ++ toString key ++ ":FREQ " ++ v)]) ∧
    (∀ (r : String) (q : ℚ),
      t.onQuery ("SOURCE" ++ toString key ++ ":VOLT?") = .ok r → pyFloat r = .ok q →
      (run t ((Keysight_36622A.voltage_get key).bind
        (fun _ => Keysight_36622A.voltage_get key))).2 =
        [Req.query ("SOURCE" ++ toString key ++ ":VOLT?"),
         Req.query ("SOURCE" ++ toString key ++ ":VOLT?")]) := by
  refine ⟨?_, ?_, ?_, ?_, ?_, ?_, ?_, ?_, ?_, ?_⟩
  · rw [show Keysight_36622A.voltage_get key = queryFloat _ from rfl, run_queryFloat]
  · rw [show Keysight_36622A.offset_get key = queryFloat _ from rfl, run_queryFloat]
  · rw [show Keysight_36622A.frequency_get key = queryFloat _ from rfl, run_queryFloat]
  · intro h
    rw [show Keysight_36622A.voltage_get key = queryFloat _ from rfl,
      run_queryFloat, run_queryFloat, h]
  · intro h
    rw [show Keysight_36622A.offset_get key = queryFloat _ from rfl,
      run_queryFloat, run_queryFloat, h]
  · intro h
    rw [show Keysight_36622A.frequency_get key = queryFloat _ from rfl,
      run_queryFloat, run_queryFloat, h]
  · rw [show Keysight_36622A.voltage_set key v = writeOp _ from rfl, run_writeOp]
  · rw [show Keysight_36622A.offset_set key v = writeOp _ from rfl, run_writeOp]
  · rw [show Keysight_36622A.frequency_set key v = writeOp _ from rfl, run_writeOp]
  · intro r q hr hq
    show (run t (DriverM.bind (queryFloat _) _)).2 = _
    simp only [queryFloat, DriverM.bind, run, hr, hq]
    rw [show Keysight_36622A.voltage_get key = queryFloat _ from rfl, run_queryFloat]

/-- A transport that accepts every write and answers every query with `50`. -/
def okTransport : Transport := ⟨fun _ => .ok (), fun _ => .ok "50"⟩

/-- Witness for C6: on a concrete transport, two consecutive voltage reads
issue two separate queries. -/
theorem C6_witness :
    (run okTransport ((Keysight_36622A.voltage_get 1).bind
      (fun _ => Keysight_36622A.voltage_get 1))).2 =
      [Req.query ("SOURCE" ++ toString 1 ++ ":VOLT?"),
       Req.query ("SOURCE" ++ toString 1 ++ ":VOLT?")] := by
  have h := C6_no_cache okTransport okTransport 1 "5.0"
  exact h.2.2.2.2.2.2.2.2.2 "50" 50 rfl (by decide)

/-- C7: for every channel key, the frequency getter sends the frequency
query `SOURCE{ch}:FREQ?` and returns the transport's textual reply parsed
by `float` — the parsed number, not the raw string. -/
theorem C7_frequency_get_parses (t : Transport) (key : ℕ) (s : String)
    (h : t.onQuery ("SOURCE" ++ toString key ++ ":FREQ?") = .ok s) :
    run t (Keysight_36622A.frequency_get key) =
      (pyFloat s, [Req.query ("SOURCE" ++ toString key ++ ":FREQ?")]) := by
  rw [show Keysight_36622A.frequency_get key = queryFloat _ from rfl, run_queryFloat, h]
  rfl

/-- Witness for C7: a concrete transport replying `"50"` makes the
frequency getter return the rational 50. -/
theorem C7_witness :
    run okTransport (Keysight_36622A.frequency_get 1) =
      (Except.ok (50 : ℚ), [Req.query ("SOURCE" ++ toString 1 ++ ":FREQ?")]) := by
  have h := C7_frequency_get_parses okTransport 1 "50" rfl
  rw [h]
  decide

/-- C9: the no-reply SCPI actions `clear_status` (`*CLS`), `trigger`
(`*TRG`), `abort` (`ABORT`), `wait` (`*WAI`) and `operation_complete`
(`*OPC`) are each issued through the blocking `query` primitive — each
attempts to read one reply after sending — not through a plain `write`. -/
theorem C9_noreply_actions_query (t : Transport) :
    (run t Keysight_36622A.clear_status).2 = [Req.query "*CLS"] ∧
    (run t Keysight_36622A.trigger).2 = [Req.query "*TRG"] ∧
    (run t Keysight_36622A.abort).2 = [Req.query "ABORT"] ∧
    (run t Keysight_36622A.wait).2 = [Req.query "*WAI"] ∧
    (run t Keysight_36622A.operation_complete).2 = [Req.query "*OPC"] := by
  refine ⟨?_, ?_, ?_, ?_, ?_⟩
  · rw [show Keysight_36622A.clear_status = queryDiscard "*CLS" from rfl, run_queryDiscard]
  · rw [show Keysight_36622A.trigger = queryDiscard "*TRG" from rfl, run_queryDiscard]
  · rw [show Keysight_36622A.abort = queryDiscard "ABORT" from rfl, run_queryDiscard]
  · rw [show Keysight_36622A.wait = queryDiscard "*WAI" from rfl, run_queryDiscard]
  · rw [show Keysight_36622A.operation_complete = queryDiscard "*OPC" from rfl, run_queryDiscard]

/-! ### Claims about the orchestrator -/

/-- C5: in every successful run of the `make_arb` task, the driver calls
occur in pipeline order — `clear_status`, then the voltage setter for the
selected channel, then output enable, all before the waveform upload
(`send_arb`) — and every per-sample acquire record is produced before the
upload. -/
theorem C5_pipeline_order (ch : ℕ) (v t : ℚ) (ydata : List ℚ) (evs : List OrchEv)
    (h : taskRun ch v t ydata = .ok evs) :
    ∃ recs : List (ℚ × ℚ),
      evs = OrchEv.clearStatus :: OrchEv.setVoltage ch v :: OrchEv.setOutput ch "ON" ::
        ((recs.map fun p => OrchEv.acquire p.1 p.2) ++
          [OrchEv.sendArb ch, OrchEv.datasetClear]) := by
  unfold taskRun at h
  cases hloop : makeArbLoop (buildXdata t ydata.length) ydata with
  | ok recs =>
    rw [hloop] at h
    injection h with h2
    exact ⟨recs, h2.symm⟩
  | error e =>
    rw [hloop] at h
    exact (Except.noConfusion h)

/-- Evaluation of one concrete successful run (one sample, timestep 1). -/
theorem taskRun_eval_one_sample :
    taskRun 1 (1 / 20) 1 [2] =
      Except.ok [OrchEv.clearStatus, OrchEv.setVoltage 1 (1 / 20), OrchEv.setOutput 1 "ON",
        OrchEv.acquire 0 2, OrchEv.sendArb 1, OrchEv.datasetClear] := by
  have hx : buildXdata 1 ([(2 : ℚ)] : List ℚ).length = [0] := buildXdata_one_one
  unfold taskRun
  rw [hx]
  rfl

/-- Witness for C5: the concrete run above is successful and exhibits the
pipeline order. -/
theorem C5_witness :
    taskRun 1 (1 / 20) 1 [2] =
      Except.ok [OrchEv.clearStatus, OrchEv.setVoltage 1 (1 / 20), OrchEv.setOutput 1 "ON",
        OrchEv.acquire 0 2, OrchEv.sendArb 1, OrchEv.datasetClear] ∧
    ∃ recs : List (ℚ × ℚ),
      ([OrchEv.clearStatus, OrchEv.setVoltage 1 (1 / 20), OrchEv.setOutput 1 "ON",
        OrchEv.acquire 0 2, OrchEv.sendArb 1, OrchEv.datasetClear] : List OrchEv) =
        OrchEv.clearStatus :: OrchEv.setVoltage 1 (1 / 20) :: OrchEv.setOutput 1 "ON" ::
          ((recs.map fun p => OrchEv.acquire p.1 p.2) ++
            [OrchEv.sendArb 1, OrchEv.datasetClear]) :=
  ⟨taskRun_eval_one_sample,
    C5_pipeline_order 1 (1 / 20) 1 [2] _ taskRun_eval_one_sample⟩

/-- C10: after every successful completion of `make_arb`, the accumulated
dataset of `(x, y)` acquire records is empty — `self.dataset.clear()` runs
immediately after the waveform upload, as the final two events of the run
are the upload and the clear — so no acquired record persists. -/
theorem C10_dataset_cleared (ch : ℕ) (v t : ℚ) (ydata : List ℚ) (evs : List OrchEv)
    (ds0 : List (ℚ × ℚ)) (h : taskRun ch v t ydata = .ok evs) :
    evs.foldl applyEv ds0 = [] ∧
    ∃ pre : List OrchEv, evs = pre ++ [OrchEv.sendArb ch, OrchEv.datasetClear] := by
  unfold taskRun at h
  cases hloop : makeArbLoop (buildXdata t ydata.length) ydata with
  | ok recs =>
    rw [hloop] at h
    injection h with h2
    subst h2
    constructor
    · rw [show initializeEvents ch v ++
          ((recs.map fun p => OrchEv.acquire p.1 p.2) ++
            [OrchEv.sendArb ch, OrchEv.datasetClear]) =
          (initializeEvents ch v ++ (recs.map fun p => OrchEv.acquire p.1 p.2)) ++
            [OrchEv.sendArb ch, OrchEv.datasetClear] by rw [List.append_assoc]]
      rw [List.foldl_append]
      rfl
    · exact ⟨initializeEvents ch v ++ (recs.map fun p => OrchEv.acquire p.1 p.2),
        by rw [List.append_assoc]⟩
  | error e =>
    rw [hloop] at h
    exact (Except.noConfusion h)

/-- Evaluation of a second concrete run (two samples, timestep 1). -/
theorem taskRun_eval_two_samples :
    taskRun 2 1 1 [1, 3] =
      Except.ok [OrchEv.clearStatus, OrchEv.setVoltage 2 1, OrchEv.setOutput 2 "ON",
        OrchEv.acquire 0 1, OrchEv.acquire 1 3, OrchEv.sendArb 2, OrchEv.datasetClear] := by
  have hx : buildXdata 1 ([(1 : ℚ), 3] : List ℚ).length = [0, 1] := buildXdata_one_two
  unfold taskRun
  rw [hx]
  rfl

/-- Witness for C10: on the concrete two-sample run, the dataset ends empty
and the run ends with the upload followed by the clear. -/
theorem C10_witness :
    ([OrchEv.clearStatus, OrchEv.setVoltage 2 1, OrchEv.setOutput 2 "ON",
      OrchEv.acquire 0 1, OrchEv.acquire 1 3, OrchEv.sendArb 2,
      OrchEv.datasetClear].foldl applyEv ([] : List (ℚ × ℚ))) = [] ∧
    ∃ pre : List OrchEv,
      ([OrchEv.clearStatus, OrchEv.setVoltage 2 1, OrchEv.setOutput 2 "ON",
        OrchEv.acquire 0 1, OrchEv.acquire 1 3, OrchEv.sendArb 2,
        OrchEv.datasetClear] : List OrchEv) =
        pre ++ [OrchEv.sendArb 2, OrchEv.datasetClear] :=
  C10_dataset_cleared 2 1 1 [1, 3] _ [] taskRun_eval_two_samples

/-- C8 counterexample: for n = 2 samples and timestep t = 3/2, we have
t > 1 and n ≥ 2, yet `xdata` has ⌈2 / (3/2)⌉ = 2 entries and the acquire
loop completes with all its index accesses in range — refuting both the
parenthetical "for n ≥ 2 this requires t ≤ 1" and the final clause
"for t > 1 with n ≥ 2 the loop's indexing goes past the end of the list". -/
theorem C8_counterexample :
    (1 : ℚ) < 3 / 2 ∧ 2 ≤ (2 : ℕ) ∧
    (buildXdata (3 / 2) ([(7 : ℚ), 9] : List ℚ).length).length = 2 ∧
    makeArbLoop (buildXdata (3 / 2) ([(7 : ℚ), 9] : List ℚ).length) [7, 9] =
      Except.ok [(0, 7), (3 / 2, 9)] := by
  have hx : buildXdata (3 / 2) ([(7 : ℚ), 9] : List ℚ).length = [0, 3 / 2] :=
    buildXdata_threehalf_two
  refine ⟨by norm_num, le_refl 2, ?_, ?_⟩
  · rw [hx]
    rfl
  · rw [hx]
    rfl

/-- C8 (amended): for a sample array of length n and timestep t > 0, the
constructed `xdata` is `[0, t, 2t, ...]` with exactly ⌈n / t⌉ entries; the
acquire loop indexes it at every i in 0..n-1, so all accesses are in range
iff ⌈n / t⌉ ≥ n; for n ≥ 2 that holds iff t < n / (n - 1) (not iff t ≤ 1
as originally claimed), and for t ≥ n / (n - 1) with n ≥ 2 the loop's
indexing goes past the end of the list. -/
theorem C8_xdata_amended (n : ℕ) (t : ℚ) (ht : 0 < t) :
    buildXdata t n = (List.range (Nat.ceil ((n : ℚ) / t))).map (fun i : ℕ => (i : ℚ) * t) ∧
    (buildXdata t n).length = Nat.ceil ((n : ℚ) / t) ∧
    ((∀ i < n, i < (buildXdata t n).length) ↔ n ≤ Nat.ceil ((n : ℚ) / t)) ∧
    (2 ≤ n → (n ≤ Nat.ceil ((n : ℚ) / t) ↔ t < (n : ℚ) / ((n : ℚ) - 1))) ∧
    (2 ≤ n → (n : ℚ) / ((n : ℚ) - 1) ≤ t → (buildXdata t n).length < n) := by
  have hlen := buildXdata_length t n ht
  have key : 2 ≤ n → (n ≤ Nat.ceil ((n : ℚ) / t) ↔ t < (n : ℚ) / ((n : ℚ) - 1)) := by
    intro hn2
    have hden : 0 < (n : ℚ) - 1 := by
      have h2 : (2 : ℚ) ≤ (n : ℚ) := by exact_mod_cast hn2
      linarith
    have hcast : ((n - 1 : ℕ) : ℚ) = (n : ℚ) - 1 := by
      rw [Nat.cast_sub (by omega)]
      norm_num
    constructor
    · intro hle
      have h1 : ((n - 1 : ℕ) : ℚ) < (n : ℚ) / t := Nat.lt_ceil.mp (by omega)
      have hlt : (n : ℚ) - 1 < (n : ℚ) / t := by rw [← hcast]; exact h1
      rw [lt_div_iff₀ hden, mul_comm]
      exact (lt_div_iff₀ ht).mp hlt
    · intro hlt
      have h1 : ((n : ℚ) - 1) * t < (n : ℚ) := by
        have := (lt_div_iff₀ hden).mp hlt
        linarith [this]
      have h2 : ((n - 1 : ℕ) : ℚ) < (n : ℚ) / t := by
        rw [hcast, lt_div_iff₀ ht]
        exact h1
      have := Nat.lt_ceil.mpr h2
      omega
  refine ⟨buildXdata_eq t n ht, hlen, ?_, key, ?_⟩
  · rw [hlen]
    constructor
    · intro hall
      by_cases hn : n = 0
      · omega
      · have := hall (n - 1) (by omega)
        omega
    · intro hle i hi
      omega
  · intro hn2 hge
    have hnot : ¬ t < (n : ℚ) / ((n : ℚ) - 1) := not_lt.mpr hge
    have h2 := (key hn2).not.mpr hnot
    rw [hlen]
    omega

/-- Witness for C8 (amended), at n = 4 samples and timestep t = 2: the
hypothesis 0 < t holds and the amended statement instantiates. -/
theorem C8_witness :
    (0 : ℚ) < 2 ∧
    (buildXdata 2 4 =
        (List.range (Nat.ceil (((4 : ℕ) : ℚ) / 2))).map (fun i : ℕ => (i : ℚ) * 2) ∧
      (buildXdata 2 4).length = Nat.ceil (((4 : ℕ) : ℚ) / 2) ∧
      ((∀ i < 4, i < (buildXdata 2 4).length) ↔ 4 ≤ Nat.ceil (((4 : ℕ) : ℚ) / 2)) ∧
      (2 ≤ 4 → (4 ≤ Nat.ceil (((4 : ℕ) : ℚ) / 2) ↔
        (2 : ℚ) < ((4 : ℕ) : ℚ) / (((4 : ℕ) : ℚ) - 1))) ∧
      (2 ≤ 4 → ((4 : ℕ) : ℚ) / (((4 : ℕ) : ℚ) - 1) ≤ 2 → (buildXdata 2 4).length < 4)) :=
  ⟨by norm_num, C8_xdata_amended 4 2 (by norm_num)⟩
